import Mathlib

/- Verification of the utfq core (src/main.rs): the agmd annotation
   grammar, the date-range query grammar, the interval-intersection
   predicate and the markdown task extractor, shallowly embedded in Lean.
   Regex character classes are modelled over ASCII (every input of
   interest is ASCII) and panics are modelled as Except.error. -/

/-- Calendar date modelling chrono::NaiveDate through the (year, month,
day) triple it exposes; on valid dates chrono's order is the
lexicographic order on the triple. -/
structure NaiveDate where
  year : Int
  month : Nat
  day : Nat
deriving DecidableEq

/-- Gregorian leap-year test used by the calendar validity check. -/
def isLeapYear (y : Int) : Bool :=
  (y % 4 == 0 && y % 100 != 0) || y % 400 == 0

/-- Length of a month of the proleptic Gregorian calendar; 0 outside
1..12 so that the validity check below fails there. -/
def daysInMonth (y : Int) (m : Nat) : Nat :=
  if m = 2 then (if isLeapYear y then 29 else 28)
  else if m = 4 ∨ m = 6 ∨ m = 9 ∨ m = 11 then 30
  else if 1 ≤ m ∧ m ≤ 12 then 31
  else 0

/-- Models chrono NaiveDate::from_ymd_opt for the four-digit years the
parsers can produce (the crate's far year bound is unreachable there). -/
def fromYmd? (y m d : Nat) : Option NaiveDate :=
  if 1 ≤ m ∧ m ≤ 12 ∧ 1 ≤ d ∧ d ≤ daysInMonth (Int.ofNat y) m then
    some ⟨Int.ofNat y, m, d⟩
  else none

/-- Boolean order on dates: lexicographic on (year, month, day), which
agrees with chrono's order on valid dates. -/
def dateLe (a b : NaiveDate) : Bool :=
  if a.year < b.year then true
  else if b.year < a.year then false
  else if a.month < b.month then true
  else if b.month < a.month then false
  else decide (a.day ≤ b.day)

/-- Read exactly n ASCII digits, accumulating their numeric value:
a fixed-width digit group of a regex together with its integer parse. -/
def readDigitsAux : Nat → Nat → List Char → Option (Nat × List Char)
  | 0, acc, cs => some (acc, cs)
  | n + 1, acc, c :: cs =>
      if c.isDigit then readDigitsAux n (acc * 10 + (c.toNat - 48)) cs else none
  | _ + 1, _, [] => none

/-- Read exactly n ASCII digits from the head of the list. -/
def readDigits (n : Nat) (cs : List Char) : Option (Nat × List Char) :=
  readDigitsAux n 0 cs

/-- Match the date shape of both regexes of main.rs, four digits, dash,
two digits, dash, two digits, at the head of the list, returning the
three captured numbers. -/
def matchDate (cs : List Char) : Option (Nat × Nat × Nat) :=
  match readDigits 4 cs with
  | none => none
  | some (y, r1) =>
    match r1 with
    | '-' :: r2 =>
      match readDigits 2 r2 with
      | none => none
      | some (m, r3) =>
        match r3 with
        | '-' :: r4 =>
          match readDigits 2 r4 with
          | none => none
          | some (d, _) => some (y, m, d)
        | _ => none
    | _ => none

/-- Leftmost match of the unanchored bare-date regex of parse_agmd
(main.rs line 315): first position, scanning left to right, where the
date shape matches. -/
def findDate : List Char → Option (Nat × Nat × Nat)
  | [] => none
  | c :: cs =>
    match matchDate (c :: cs) with
    | some r => some r
    | none => findDate cs

/-- ASCII model of the regex word class used for annotation keys. -/
def isWordChar (c : Char) : Bool := c.isAlphanum || c = '_'

/-- Backtracking over the greedy key run of the key=value regex: try key
length k, then k-1, down to 1, each followed by the equals sign and the
date shape. -/
def tryKvLen : Nat → List Char → Option (List Char × Nat × Nat × Nat)
  | 0, _ => none
  | k + 1, cs =>
    match cs.drop (k + 1) with
    | '=' :: rest =>
      (match matchDate rest with
       | some (y, m, d) => some (cs.take (k + 1), y, m, d)
       | none => tryKvLen k cs)
    | _ => tryKvLen k cs

/-- Try the key=value pattern anchored at the head, with the greedy,
backtracking word run for the key. -/
def kvAt (cs : List Char) : Option (List Char × Nat × Nat × Nat) :=
  tryKvLen (cs.takeWhile isWordChar).length cs

/-- Leftmost-first match of the key=value regex of parse_agmd (main.rs
line 327). -/
def kvFind : List Char → Option (List Char × Nat × Nat × Nat)
  | [] => none
  | c :: cs =>
    match kvAt (c :: cs) with
    | some r => some r
    | none => kvFind cs

/-- Rust str::split(";"): every piece, empty pieces preserved; the empty
string splits into one empty piece. -/
def splitSemi : List Char → List (List Char)
  | [] => [[]]
  | ';' :: rest => [] :: splitSemi rest
  | c :: rest =>
    match splitSemi rest with
    | [] => [[c]]
    | h :: t => (c :: h) :: t

/-- Schedule interval (struct Agmd, main.rs line 299). -/
structure Agmd where
  start : Option NaiveDate
  due : Option NaiveDate
deriving DecidableEq

/-- The key=value loop of parse_agmd (main.rs lines 328-342); the result
none models the early return of None through the question-mark operator
when a component fails to match or its date is invalid. -/
def kvLoop : List (List Char) → Option NaiveDate → Option NaiveDate →
    Option (Option NaiveDate × Option NaiveDate)
  | [], s, d => some (s, d)
  | comp :: rest, s, d =>
    match kvFind comp with
    | none => none
    | some (key, y, m, dd) =>
      match fromYmd? y m dd with
      | none => none
      | some date =>
        if key = "start".data then kvLoop rest (some date) d
        else if key = "due".data then kvLoop rest s (some date)
        else kvLoop rest s d

/-- parse_agmd (main.rs lines 309-345).  The bare-date regex is scanned
first over the whole input; a match with an invalid calendar date hits
the unwrap at line 320, modelled as Except.error; otherwise the
key=value loop runs over the semicolon-split components. -/
def parse_agmd (input : String) : Except String (Option Agmd) :=
  match findDate input.data with
  | some (y, m, d) =>
    match fromYmd? y m d with
    | some date => .ok (some { start := some date, due := some date })
    | none => .error "unwrap on None in parse_agmd"
  | none =>
    match kvLoop (splitSemi input.data) none none with
    | some (s, d) => .ok (some { start := s, due := d })
    | none => .ok none

/-- Relative date of the query grammar (enum DateFormat, main.rs line
369). -/
inductive DateFormat
  | Relative (i : Int)
deriving DecidableEq

/-- Query shape (enum DateRangeFormat, main.rs line 382). -/
inductive DateRangeFormat
  | Single (d : DateFormat)
  | Range (a b : Option DateFormat)
deriving DecidableEq

/-- Whole-list match of an optionally signed digit run, the first
anchored regex of parse_date_range. -/
def isSignedIntChars (cs : List Char) : Bool :=
  match cs with
  | '+' :: rest => !rest.isEmpty && rest.all Char.isDigit
  | '-' :: rest => !rest.isEmpty && rest.all Char.isDigit
  | rest => !rest.isEmpty && rest.all Char.isDigit

/-- Numeric value of a digit run. -/
def digitsVal (cs : List Char) : Nat :=
  cs.foldl (fun acc c => acc * 10 + (c.toNat - 48)) 0

/-- Rust str::parse for i64: signed decimal syntax with the two's
complement bounds; out-of-range values fail. -/
def parseI64 (cs : List Char) : Option Int :=
  let p : Int × List Char :=
    match cs with
    | '+' :: rest => (1, rest)
    | '-' :: rest => (-1, rest)
    | rest => (1, rest)
  if p.2.isEmpty || !p.2.all Char.isDigit then none
  else
    let v : Int := p.1 * Int.ofNat (digitsVal p.2)
    if -(2 ^ 63) ≤ v ∧ v ≤ 2 ^ 63 - 1 then some v else none

/-- Candidate spans for the leading optional signed-integer group of the
range regex, in the preference order of a leftmost-first engine: the
sign-led or bare digit run from longest to shortest, then the empty
match. -/
def g1Lens (cs : List Char) : List Nat :=
  match cs with
  | c :: rest =>
    if c = '+' ∨ c = '-' then
      ((List.range (rest.takeWhile Char.isDigit).length).reverse.map (fun k => k + 2)) ++ [0]
    else
      ((List.range (cs.takeWhile Char.isDigit).length).reverse.map (fun k => k + 1)) ++ [0]
  | [] => [0]

/-- One candidate split of the anchored range regex of parse_date_range
(main.rs line 451).  Its two dots are unescaped wildcards, so after the
optional first group any two characters are consumed, and the optional
second group must span the whole remainder for the end anchor to hold.
Overflowing captures become none through Result::ok, never errors. -/
def tryRangeSplit (cs : List Char) (len : Nat) : Option (Option Int × Option Int) :=
  match cs.drop len with
  | _ :: _ :: r =>
    if r.isEmpty then
      some (if len = 0 then none else parseI64 (cs.take len), none)
    else if isSignedIntChars r then
      some (if len = 0 then none else parseI64 (cs.take len), parseI64 r)
    else none
  | _ => none

/-- First successful candidate split, mirroring the engine's backtracking
preference. -/
def rangeMatch (cs : List Char) : Option (Option Int × Option Int) :=
  (g1Lens cs).foldl (fun acc len => acc <|> tryRangeSplit cs len) none

/-- parse_date_range (main.rs lines 447-470): the anchored signed-integer
regex is tried first, with an integer-parse failure propagated as an
error; otherwise the range regex (with its wildcard dots) is tried. -/
def parse_date_range (input : String) : Except String DateRangeFormat :=
  if isSignedIntChars input.data then
    match parseI64 input.data with
    | some n => .ok (.Single (.Relative n))
    | none => .error "number too large to fit in target type"
  else
    match rangeMatch input.data with
    | some (n, m) =>
      .ok (.Range (n.map DateFormat.Relative) (m.map DateFormat.Relative))
    | none => .error "neither single date or range"

/-- Day number of a civil date (days-from-civil, floor divisions). -/
def toDays (dt : NaiveDate) : Int :=
  let y : Int := if dt.month ≤ 2 then dt.year - 1 else dt.year
  let era : Int := Int.fdiv y 400
  let yoe : Int := y - era * 400
  let mp : Int := if 2 < dt.month then (dt.month : Int) - 3 else (dt.month : Int) + 9
  let doy : Int := Int.fdiv (153 * mp + 2) 5 + (dt.day : Int) - 1
  let doe : Int := yoe * 365 + Int.fdiv yoe 4 - Int.fdiv yoe 100 + doy
  era * 146097 + doe - 719468

/-- Civil date of a day number (civil-from-days, floor divisions). -/
def ofDays (z0 : Int) : NaiveDate :=
  let z : Int := z0 + 719468
  let era : Int := Int.fdiv z 146097
  let doe : Int := z - era * 146097
  let yoe : Int := Int.fdiv (doe - Int.fdiv doe 1460 + Int.fdiv doe 36524 - Int.fdiv doe 146096) 365
  let y : Int := yoe + era * 400
  let doy : Int := doe - (365 * yoe + Int.fdiv yoe 4 - Int.fdiv yoe 100)
  let mp : Int := Int.fdiv (5 * doy + 2) 153
  let d : Int := doy - Int.fdiv (153 * mp + 2) 5 + 1
  let m : Int := if mp < 10 then mp + 3 else mp - 9
  ⟨if m ≤ 2 then y + 1 else y, m.toNat, d.toNat⟩

/-- Signed day addition on dates, modelling checked_add_signed with a
day delta (spec section 4.3: signed day arithmetic on today). -/
def addDays (dt : NaiveDate) (i : Int) : NaiveDate := ofDays (toDays dt + i)

/-- The absolute closure of filter_agmd_intersection (main.rs line 396):
resolve a relative offset against today. -/
def absoluteDate (today : NaiveDate) : DateFormat → NaiveDate
  | .Relative i => addDays today i

/-- filter_agmd_intersection (main.rs lines 394-427), with today passed
explicitly in place of Local::now; the match arms are transcribed in
source order. -/
def filter_agmd_intersection (today : NaiveDate) (q : DateRangeFormat) (agmd : Agmd) : Bool :=
  match q with
  | .Single d =>
    let dd := absoluteDate today d
    match agmd.start, agmd.due with
    | none, none => false
    | none, some due => dateLe dd due
    | some s, none => dateLe s dd
    | some s, some due => dateLe s dd && dateLe dd due
  | .Range d1 d2 =>
    match d1.map (absoluteDate today), d2.map (absoluteDate today), agmd.start, agmd.due with
    | none, none, _, _ | _, _, none, none => true
    | none, _, none, _ | _, none, _, none => true
    | none, some e2, some s, none
    | none, some e2, some s, some _
    | some _, some e2, some s, none => dateLe s e2
    | some e1, none, none, some due
    | some e1, none, some _, some due
    | some e1, some _, none, some due => dateLe e1 due
    | some e1, some e2, some s, some due => dateLe s e2 && dateLe e1 due

/-- Markdown structural events the extractor matches on; every event kind
it ignores collapses to other (the pulldown_cmark tokenizer is an
external collaborator, spec section 4.4 fixes only these shapes). -/
inductive Event
  | startItem
  | endItem
  | startLink (dest_url : String)
  | endLink
  | text (s : String)
  | taskListMarker (checked : Bool)
  | other
deriving DecidableEq

/-- Parse-context frame (enum Position, main.rs line 176). -/
inductive Position
  | item (checked : Option Bool) (agmd : Option String) (text : String)
  | agmdLink
deriving DecidableEq

/-- Task record (struct VTodo, main.rs line 132). -/
structure VTodo where
  checked : Bool
  text : String
  agmd : Option Agmd
deriving DecidableEq

/-- str::split_once with the agmd marker: the suffix following its first
occurrence, if any. -/
def afterMarker : List Char → Option (List Char)
  | [] => none
  | c :: cs =>
    if (c :: cs).take 5 = "agmd:".data then some ((c :: cs).drop 5)
    else afterMarker cs

/-- ASCII whitespace, the characters str::trim removes on the inputs
involved here. -/
def isWs (c : Char) : Bool := c = ' ' || c = '\t' || c = '\n' || c = '\r'

/-- Trim whitespace from both ends of a character list. -/
def trimChars (cs : List Char) : List Char :=
  ((cs.dropWhile isWs).reverse.dropWhile isWs).reverse

/-- str::trim followed by to_string. -/
def trimStr (s : String) : String := String.mk (trimChars s.data)

/-- Event loop of parse_markdown (main.rs lines 201-268).  The head of
the list is the top of the stack (the Vec's last element); Except.error
models the two panics of the loop and a panic escaping parse_agmd. -/
def mdGo : List Event → List Position → List VTodo → Except String (List VTodo)
  | [], _, acc => .ok acc
  | ev :: es, stack, acc =>
    match ev with
    | .startItem => mdGo es (.item none none "" :: stack) acc
    | .endItem =>
      match stack with
      | .item checked agmd t :: rest =>
        match agmd with
        | some a =>
          match checked with
          | some c =>
            match parse_agmd a with
            | .ok o => mdGo es rest (acc ++ [{ checked := c, text := trimStr t, agmd := o }])
            | .error e => .error e
          | none => mdGo es rest acc
        | none => mdGo es rest acc
      | _ => .error "expect end of link"
    | .startLink dest =>
      match afterMarker dest.data, stack with
      | some snd, .item c _prev t :: rest =>
        mdGo es (.agmdLink :: .item c (some (String.mk snd)) t :: rest) acc
      | _, _ => mdGo es stack acc
    | .endLink =>
      match stack with
      | .agmdLink :: rest => mdGo es rest acc
      | _ => mdGo es stack acc
    | .text str =>
      match stack with
      | .item c ag t :: rest => mdGo es (.item c ag (t ++ str) :: rest) acc
      | _ => mdGo es stack acc
    | .taskListMarker b =>
      match stack with
      | .item _ ag t :: rest => mdGo es (.item (some b) ag t :: rest) acc
      | _ => .error "task marker should be in item"
    | .other => mdGo es stack acc

/-- parse_markdown (main.rs lines 193-271) over an event stream. -/
def parse_markdown (events : List Event) : Except String (List VTodo) :=
  mdGo events [] []

/-- Two-character zero-padded decimal, the month and day rendering of
chrono's ymd display. -/
def pad2Chars (n : Nat) : List Char :=
  [Char.ofNat (48 + n / 10 % 10), Char.ofNat (48 + n % 10)]

/-- Four-character zero-padded decimal for years up to 9999. -/
def pad4Chars (n : Nat) : List Char :=
  [Char.ofNat (48 + n / 1000 % 10), Char.ofNat (48 + n / 100 % 10),
   Char.ofNat (48 + n / 10 % 10), Char.ofNat (48 + n % 10)]

/-- Year rendering of chrono's ymd display: zero-padded four digits for
0..9999, a plus sign beyond, a minus sign below zero. -/
def yearChars (y : Int) : List Char :=
  if 0 ≤ y ∧ y ≤ 9999 then pad4Chars y.toNat
  else if 9999 < y then '+' :: (Nat.repr y.toNat).data
  else '-' :: (if -9999 ≤ y then pad4Chars (-y).toNat else (Nat.repr (-y).toNat).data)

/-- chrono NaiveDate display: year, dash, month, dash, day. -/
def formatDate (d : NaiveDate) : String :=
  String.mk (yearChars d.year ++ '-' :: pad2Chars d.month ++ '-' :: pad2Chars d.day)

/-- Annotation body the Display impl for VTodo writes between the agmd
marker and the closing angle bracket (main.rs lines 147-160). -/
def render_agmd_body : Option Agmd → String
  | none => ""
  | some a =>
    match a.start, a.due with
    | none, some due => "due=" ++ formatDate due
    | some s, none => "start=" ++ formatDate s
    | some s, some due =>
      if s = due then formatDate s
      else "start=" ++ formatDate s ++ ";" ++ "due=" ++ formatDate due
    | none, none => ""

/-- Display impl for VTodo (main.rs lines 138-164). -/
def render_vtodo (v : VTodo) : String :=
  "- [" ++ (if v.checked then "x" else " ") ++ "] " ++ v.text ++
    " <agmd:" ++ render_agmd_body v.agmd ++ ">"

/-- Event stream the external pulldown_cmark tokenizer yields for the
two-line task document of the end-to-end example, written with the event
shapes fixed in spec section 4.4 (list framing collapses to other). -/
def doc_events : List Event :=
  [ .other,
    .startItem, .taskListMarker false, .text "Buy milk ",
    .startLink "agmd:2025-12-01", .text "sched", .endLink, .endItem,
    .startItem, .taskListMarker true, .text "Done ",
    .startLink "agmd:start=2025-01-01;due=2025-01-31", .text "sched", .endLink, .endItem,
    .other ]

/-- C1: evaluation of parse_agmd at the claim's two inputs.  The
unanchored bare-date regex intercepts the date embedded in the first
key=value component, so both inputs parse to single-day intervals at
that date instead of filling the named fields. -/
theorem C1_eval :
    parse_agmd "start=2025-11-30;due=2025-12-20" =
      .ok (some { start := some ⟨2025, 11, 30⟩, due := some ⟨2025, 11, 30⟩ }) ∧
    parse_agmd "due=2025-12-30" =
      .ok (some { start := some ⟨2025, 12, 30⟩, due := some ⟨2025, 12, 30⟩ }) :=
  ⟨rfl, rfl⟩

/-- C2 counterexample: a Single query against the fully-open schedule
returns false, refuting the claim that a fully-open schedule intersects
every query. -/
theorem C2_counterexample :
    filter_agmd_intersection ⟨2025, 6, 15⟩ (.Single (.Relative 0))
      { start := none, due := none } = false := rfl

/-- C2 amended: Range(None, None) intersects every schedule and a
fully-open schedule intersects every Range query, but every Single query
against a fully-open schedule returns false. -/
theorem C2_amended (today : NaiveDate) (s : Agmd) (d1 d2 : Option DateFormat)
    (df : DateFormat) :
    filter_agmd_intersection today (.Range none none) s = true ∧
    filter_agmd_intersection today (.Range d1 d2) { start := none, due := none } = true ∧
    filter_agmd_intersection today (.Single df) { start := none, due := none } = false := by
  refine ⟨?_, ?_, ?_⟩
  · obtain ⟨ss, sd⟩ := s
    cases ss <;> cases sd <;> rfl
  · cases d1 <;> cases d2 <;> rfl
  · rfl

/-- C3: evaluation at the failing input.  The bare-date regex matches
2025-13-01, from_ymd_opt rejects month 13 and the unwrap at line 320
panics, modelled as an error; the code does not return None here. -/
theorem C3_panic_eval :
    parse_agmd "start=2025-13-01" = .error "unwrap on None in parse_agmd" := rfl

/-- C4: evaluation at the failing record.  Rendering the schedule
start 2025-01-01, due 2025-01-31 produces the key=value body, and
re-parsing that body yields the single-day interval at 2025-01-01, not
the original interval, so the round-trip fails for the key=value form. -/
theorem C4_eval :
    render_agmd_body (some { start := some ⟨2025, 1, 1⟩, due := some ⟨2025, 1, 31⟩ }) =
      "start=2025-01-01;due=2025-01-31" ∧
    parse_agmd "start=2025-01-01;due=2025-01-31" =
      .ok (some { start := some ⟨2025, 1, 1⟩, due := some ⟨2025, 1, 1⟩ }) ∧
    ({ start := some ⟨2025, 1, 1⟩, due := some ⟨2025, 1, 1⟩ } : Agmd) ≠
      { start := some ⟨2025, 1, 1⟩, due := some ⟨2025, 1, 31⟩ } :=
  ⟨rfl, rfl, by decide⟩

/-- C5 counterexample: the dots of the range regex are unescaped
wildcards, so the input ab, which contains no literal dots and matches
neither documented shape, is accepted as the fully-open range. -/
theorem C5_counterexample :
    parse_date_range "ab" = .ok (.Range none none) := rfl

/-- C5 amended: the integer shape and the four documented examples
behave as stated, but the two dots of the range shape are unescaped
wildcards: any two characters may stand in their place, as the last
conjunct shows. -/
theorem C5_amended :
    parse_date_range "-1..3" = .ok (.Range (some (.Relative (-1))) (some (.Relative 3))) ∧
    parse_date_range ".." = .ok (.Range none none) ∧
    parse_date_range "5" = .ok (.Single (.Relative 5)) ∧
    parse_date_range "abc" = .error "neither single date or range" ∧
    parse_date_range "-1xy3" = .ok (.Range (some (.Relative (-1))) (some (.Relative 3))) :=
  ⟨rfl, rfl, rfl, rfl, rfl⟩

/-- C6 counterexample: on the fully-open schedule the degenerate range
query answers true while the single query answers false, so the
reduction of Range(d, d) to Single(d) fails there. -/
theorem C6_counterexample :
    filter_agmd_intersection ⟨2025, 6, 15⟩
      (.Range (some (.Relative 0)) (some (.Relative 0)))
      { start := none, due := none } = true ∧
    filter_agmd_intersection ⟨2025, 6, 15⟩ (.Single (.Relative 0))
      { start := none, due := none } = false :=
  ⟨rfl, rfl⟩

/-- C6 amended: for every schedule with at least one bound present, the
degenerate range Range(Some d, Some d) decides exactly as Single d; the
two differ only on the fully-open schedule. -/
theorem C6_amended (today : NaiveDate) (i : Int) (s : Agmd)
    (h : s.start.isSome ∨ s.due.isSome) :
    filter_agmd_intersection today (.Range (some (.Relative i)) (some (.Relative i))) s =
      filter_agmd_intersection today (.Single (.Relative i)) s := by
  obtain ⟨ss, sd⟩ := s
  cases ss <;> cases sd
  · simp at h
  · rfl
  · rfl
  · rfl

/-- C6 amended, witness at the boundary example of the spec. -/
theorem C6_amended_witness :
    ((some (⟨2025, 6, 10⟩ : NaiveDate)).isSome ∨ (some (⟨2025, 6, 20⟩ : NaiveDate)).isSome) ∧
    filter_agmd_intersection ⟨2025, 6, 15⟩
        (.Range (some (.Relative 0)) (some (.Relative 0)))
        { start := some ⟨2025, 6, 10⟩, due := some ⟨2025, 6, 20⟩ } =
      filter_agmd_intersection ⟨2025, 6, 15⟩ (.Single (.Relative 0))
        { start := some ⟨2025, 6, 10⟩, due := some ⟨2025, 6, 20⟩ } :=
  ⟨Or.inl rfl,
   C6_amended ⟨2025, 6, 15⟩ 0
     { start := some ⟨2025, 6, 10⟩, due := some ⟨2025, 6, 20⟩ } (Or.inl rfl)⟩

/-- C7: whenever the leftmost date-shaped substring of the input is a
valid calendar date, parse_agmd returns the single-day interval at that
date and the key=value form is never consulted. -/
theorem C7_short_circuit (s : String) (y m d : Nat) (date : NaiveDate)
    (h1 : findDate s.data = some (y, m, d))
    (h2 : fromYmd? y m d = some date) :
    parse_agmd s = .ok (some { start := some date, due := some date }) := by
  simp [parse_agmd, h1, h2]

/-- C7 witness: an input carrying key=value components whose leftmost
embedded date is valid parses to the single-day interval at that date,
ignoring the due component entirely. -/
theorem C7_short_circuit_witness :
    findDate ("start=2025-11-30;due=2025-12-20").data = some (2025, 11, 30) ∧
    fromYmd? 2025 11 30 = some ⟨2025, 11, 30⟩ ∧
    parse_agmd "start=2025-11-30;due=2025-12-20" =
      .ok (some { start := some ⟨2025, 11, 30⟩, due := some ⟨2025, 11, 30⟩ }) :=
  ⟨by decide, by decide,
   C7_short_circuit "start=2025-11-30;due=2025-12-20" 2025 11 30 ⟨2025, 11, 30⟩
     (by decide) (by decide)⟩

/-- C8 counterexample: the empty input does not yield the degenerate
always-active interval. -/
theorem C8_counterexample :
    parse_agmd "" ≠ .ok (some { start := none, due := none }) := by
  intro h
  rw [show parse_agmd "" = .ok none from rfl] at h
  exact Option.noConfusion (Except.ok.inj h)

/-- C8 amended: on the empty input the single empty component fails the
key=value pattern, so the all-or-nothing loop rejects and parse_agmd
returns None, not the degenerate interval. -/
theorem C8_amended : parse_agmd "" = .ok none := rfl

/-- C9: the extractor over the event stream of the two-line document
yields exactly two records in source order; the second is checked with
text Done, and the label text sched of the annotation links is excluded
from both records because Text events under an AgmdLink top frame are
discarded. -/
theorem C9_end_to_end :
    parse_markdown doc_events =
      .ok [ { checked := false, text := "Buy milk",
              agmd := some { start := some ⟨2025, 12, 1⟩, due := some ⟨2025, 12, 1⟩ } },
            { checked := true, text := "Done",
              agmd := some { start := some ⟨2025, 1, 1⟩, due := some ⟨2025, 1, 1⟩ } } ] :=
  rfl

/-- C10: a range side whose digit run overflows i64 is converted to an
open bound by Result::ok rather than rejected, so the query parses to
Range(None, Some 3). -/
theorem C10_overflow_eval :
    parse_date_range "99999999999999999999..3" =
      .ok (.Range none (some (.Relative 3))) := rfl
